import Mathlib

/-!
Shallow embedding of the SkyPortal GCN-event UI components
(`GcnSelectionForm`, `SkymapTriggerAPIDisplay`, `RecentGcnEvents`)
and proofs about the selection, validation and rendering logic.
-/

namespace SkyPortal

/-! ### A small model of JavaScript values

The form data handed to the custom validator is a plain JS object; property
accesses on keys the object does not have yield `undefined`, and relational
comparisons involving `undefined` evaluate to `false` (NaN semantics). -/

inductive JSVal where
  | undefined
  | vstr (s : String)
  | vnum (q : ℚ)
  | vbool (b : Bool)
  | vstrList (l : List String)
  | vnumList (l : List ℚ)
  deriving DecidableEq, Repr

/-- JS `>` for the value shapes reachable in this code: string/string compares
lexicographically, number/number numerically, and any comparison involving
`undefined` is `false` (it coerces to NaN). Other mixes never occur here. -/
def jsGt : JSVal → JSVal → Bool
  | .vstr a, .vstr b => decide (b < a)
  | .vnum a, .vnum b => decide (b < a)
  | _, _ => false

/-- JS `<`, same conventions as `jsGt`. -/
def jsLt : JSVal → JSVal → Bool
  | .vstr a, .vstr b => decide (a < b)
  | .vnum a, .vnum b => decide (a < b)
  | _, _ => false

/-! ### The query form data (`GcnSourceSelectionFormSchema`)

The schema of the rjsf form declares exactly the properties
`startDate`, `endDate`, `numberDetections`, `localizationCumprob`,
`maxDistance`, `localizationRejectSources`, `queryList`, `group_ids`;
submitted form data carries those keys and no others. -/

structure FilterFormData where
  startDate : String
  endDate : String
  numberDetections : ℚ
  localizationCumprob : ℚ
  maxDistance : ℚ
  localizationRejectSources : Bool
  queryList : List String
  group_ids : List ℚ
  deriving DecidableEq, Repr

/-- JS property access on a submitted form-data object: the schema keys map to
their values, every other key (in particular `start_date`, `end_date` and
`cumulative`) is absent and reads as `undefined`. -/
def FilterFormData.jsProp (fd : FilterFormData) (key : String) : JSVal :=
  if key = "startDate" then .vstr fd.startDate
  else if key = "endDate" then .vstr fd.endDate
  else if key = "numberDetections" then .vnum fd.numberDetections
  else if key = "localizationCumprob" then .vnum fd.localizationCumprob
  else if key = "maxDistance" then .vnum fd.maxDistance
  else if key = "localizationRejectSources" then .vbool fd.localizationRejectSources
  else if key = "queryList" then .vstrList fd.queryList
  else if key = "group_ids" then .vnumList fd.group_ids
  else .undefined

/-- The keys of a submitted form-data object (the schema properties). -/
def formDataKeys : List String :=
  ["startDate", "endDate", "numberDetections", "localizationCumprob",
   "maxDistance", "localizationRejectSources", "queryList", "group_ids"]

/-- The rjsf error handler passed to `customValidate`: one per-field error list
for each key of the submitted form data (and only those keys have an
`addError` member). -/
structure FormValidation where
  fields : List (String × List String)
  deriving DecidableEq, Repr

/-- `errors.<field>.addError(msg)`: appends to the field's error list when the
field exists on the handler; on any other name the member access yields
`undefined` and the call raises a TypeError. -/
def FormValidation.addError (e : FormValidation) (field msg : String) :
    Except String FormValidation :=
  if (e.fields.map Prod.fst).contains field then
    .ok ⟨e.fields.map (fun p => if p.1 = field then (p.1, p.2 ++ [msg]) else p)⟩
  else
    .error "TypeError: addError of undefined"

/-- Fresh error handler for a submitted form data object: empty error list per
form-data key. -/
def initErrorHandler (_fd : FilterFormData) : FormValidation :=
  ⟨formDataKeys.map (fun k => (k, []))⟩

/-- The `validate(formData, errors)` custom validator of `GcnSelectionForm`:
compares `formData.start_date > formData.end_date` and checks
`formData.localizationCumprob < 0 || formData.localizationCumprob > 1.01`,
adding errors to `errors.start_date` resp. `errors.cumulative`. -/
def validate (fd : FilterFormData) : Except String FormValidation :=
  let errors := initErrorHandler fd
  let step1 : Except String FormValidation :=
    if jsGt (fd.jsProp "start_date") (fd.jsProp "end_date") then
      errors.addError "start_date" "Start date must be before end date, please fix."
    else .ok errors
  match step1 with
  | .error e => .error e
  | .ok errors1 =>
    if jsLt (fd.jsProp "localizationCumprob") (JSVal.vnum 0)
        || jsGt (fd.jsProp "localizationCumprob") (JSVal.vnum 1.01) then
      errors1.addError "cumulative" "Value of cumulative should be between 0 and 1"
    else .ok errors1

/-! ### Reference entities -/

structure Instrument where
  id : Int
  name : String
  deriving DecidableEq, Repr

structure Localization where
  id : Int
  localization_name : String
  deriving DecidableEq, Repr

/-! ### Default selection (`setDefaults` in `GcnSelectionForm`) -/

/-- The comparator used by `setDefaults` to reorder the instrument list:
an instrument named `"ZTF"` sorts first, otherwise ascending by id. -/
def instrumentCmp (i1 i2 : Instrument) : Int :=
  if i1.name = "ZTF" then -1
  else if i2.name = "ZTF" then 1
  else if i1.id > i2.id then 1
  else if i2.id > i1.id then -1
  else 0

/-- `a` may come before `b` under `instrumentCmp` (comparator result not positive). -/
def instLe (i1 i2 : Instrument) : Bool := decide (instrumentCmp i1 i2 ≤ 0)

/-- `orderedInstrumentList` of `setDefaults`: the instrument list sorted with
`instrumentCmp` (JS `Array.prototype.sort`, modelled as a stable sort). -/
def orderedInstrumentList (l : List Instrument) : List Instrument :=
  l.mergeSort instLe

/-- `setDefaults`: selects `orderedInstrumentList[0]?.id` as the instrument,
and the first localization's id and name. -/
def setDefaults (instrumentList : List Instrument) (localizations : List Localization) :
    Option Int × Option Int × Option String :=
  ((orderedInstrumentList instrumentList).head?.map Instrument.id,
   (localizations.head?.map Localization.id,
    localizations.head?.map Localization.localization_name))

/-- The alphabetical-by-name comparator applied to `sortedInstrumentList`
(the list the render and the instrument lookup table are built from). -/
def nameLe (i1 i2 : Instrument) : Bool :=
  decide ((if i1.name > i2.name then (1 : Int)
           else if i2.name > i1.name then -1
           else 0) ≤ 0)

/-- `sortedInstrumentList`: the instrument list sorted alphabetically by name. -/
def sortedInstrumentList (l : List Instrument) : List Instrument :=
  l.mergeSort nameLe

/-! ### Lookup tables (`instLookUp`, `locLookUp`, ...)

Built with `forEach` insertion keyed by id; a later element with the same id
overwrites an earlier one. -/

def buildLookUp {α : Type} (key : α → Int) (l : List α) : Int → Option α :=
  l.foldl (fun m x => fun k => if k = key x then some x else m k) (fun _ => none)

/-- JS truthiness of a possibly-null numeric id (`null` and `0` are falsy). -/
def jsTruthyId : Option Int → Bool
  | none => false
  | some n => decide (n ≠ 0)

/-- Guard of the `fetchSkymapInstrument` effect: the fetch is dispatched only
when `instLookUp[selectedInstrumentId]` is truthy and
`Object.keys(locLookUp).includes(selectedLocalizationId?.toString())`. -/
def skymapFetchCond (instrumentList : List Instrument) (localizations : List Localization)
    (selectedInstrumentId selectedLocalizationId : Option Int) : Bool :=
  (match selectedInstrumentId with
   | some i => (buildLookUp Instrument.id (sortedInstrumentList instrumentList) i).isSome
   | none => false)
  && (match selectedLocalizationId with
      | some j => (buildLookUp Localization.id localizations j).isSome
      | none => false)

/-! ### Results tab panes -/

inductive PaneView where
  | fetching
  | noneText
  | table
  | blank
  deriving DecidableEq, Repr

/-- JS truthiness of the `selectedLocalizationName` prop (absent or empty
string is falsy). -/
def jsTruthyStr : Option String → Bool
  | none => false
  | some s => decide (s ≠ "")

/-- The Sources tab pane (`tabIndex === 2`): fetching text while
`gcnEventSources?.sources` is absent, `"None"` when it has length zero,
otherwise the `GcnEventSourcesPage` table — but only inside a
`selectedLocalizationName &&` guard, so with a falsy name nothing renders. -/
def sourcesPane {α : Type} (sources : Option (List α))
    (selectedLocalizationName : Option String) : PaneView :=
  match sources with
  | none => .fetching
  | some l =>
    if l.length = 0 then .noneText
    else if jsTruthyStr selectedLocalizationName then .table
    else .blank

/-- The Galaxies tab pane (`tabIndex === 3`). -/
def galaxiesPane {α : Type} (galaxies : Option (List α)) : PaneView :=
  match galaxies with
  | none => .fetching
  | some l => if l.length = 0 then .noneText else .table

/-- The Observations tab pane (`tabIndex === 4`). -/
def observationsPane {α : Type} (observations : Option (List α)) : PaneView :=
  match observations with
  | none => .fetching
  | some l => if l.length = 0 then .noneText else .table

/-! ### Treasure Map submit control -/

inductive TreasureMapControl where
  | progress
  | button
  deriving DecidableEq, Repr

/-- The render of the Treasure Map submit slot for the currently selected
instrument: a progress indicator when `isSubmittingTreasureMap ===
selectedInstrumentId`, otherwise the (enabled) submit button. -/
def treasureMapSubmitControl (isSubmittingTreasureMap : Option Int)
    (selectedInstrumentId : Int) : TreasureMapControl :=
  if isSubmittingTreasureMap = some selectedInstrumentId then .progress else .button

/-- `handleSubmitTreasureMap` first sets the in-flight flag to the submitted
instrument id. -/
def handleSubmitTreasureMapStart (id : Int) : Option Int := some id

/-- ... and resets it to null once the dispatch resolves. -/
def handleSubmitTreasureMapFinish : Option Int := none

/-! ### `SkymapTriggerAPIDisplay` -/

structure GcnEvent where
  id : Int
  dateobs : String
  localizations : List Localization
  deriving DecidableEq, Repr

structure Allocation where
  id : Int
  deriving DecidableEq, Repr

/-- A react-hook-form field value: the empty string or a numeric id. -/
inductive FormFieldVal where
  | empty
  | idv (n : Int)
  deriving DecidableEq, Repr

structure TriggerSelState where
  gcneventid : FormFieldVal
  localizationid : FormFieldVal
  selectedGcnEventId : Option Int
  selectedTriggerName : String
  triggerList : List String
  deriving DecidableEq, Repr

/-- The GCN-event `Select` onChange handler of `SkymapTriggerAPIDisplay`:
resets the form fields `gcneventid` and `localizationid` (to `""` when the
sentinel `-1` is chosen, else to the chosen event and its first localization,
`?.id || ""`), and records the chosen value in `selectedGcnEventId`. -/
def handleGcnEventSelectChange (st : TriggerSelState) (gcnEvents : List GcnEvent)
    (value : Int) : TriggerSelState :=
  { st with
    gcneventid := if value = -1 then .empty else .idv value,
    localizationid :=
      if value = -1 then .empty
      else
        match (buildLookUp GcnEvent.id gcnEvents value).bind
            (fun ev => ev.localizations.head?) with
        | some loc => if loc.id = 0 then .empty else .idv loc.id
        | none => .empty,
    selectedGcnEventId := some value }

/-- The state written by `getTriggers` once the trigger-catalog response for an
allocation arrives: `(triggerList, selectedTriggerName)`. A response whose
`trigger_names` has positive length installs those names and selects the
first; otherwise both fall back to `"None"`. -/
def getTriggersUpdate (response : Option (List String)) : List String × String :=
  match response with
  | some names =>
    if names.length > 0 then (names, names.headD "None")
    else (["None"], "None")
  | none => (["None"], "None")

/-- `getTriggers` with its guard: the fetch (and the state update) happens only
when `selectedAllocationId` is truthy and `allocationListApiObsplan` is
non-empty; otherwise the state is left unchanged. -/
def getTriggers (selectedAllocationId : Option Int) (allocationListApiObsplan : List Allocation)
    (response : Option (List String)) (st : List String × String) : List String × String :=
  if jsTruthyId selectedAllocationId && decide (allocationListApiObsplan.length > 0) then
    getTriggersUpdate response
  else st

/-! ### `RecentGcnEvents` widget -/

structure RecentEventsPrefs where
  maxNumEvents : String
  deriving DecidableEq, Repr

/-- `defaultPrefs` of `RecentGcnEvents`. -/
def defaultPrefs : RecentEventsPrefs := { maxNumEvents := "5" }

/-- `state.profile.preferences?.recentGcnEvents || defaultPrefs`. -/
def recentEventsPrefs (stored : Option RecentEventsPrefs) : RecentEventsPrefs :=
  stored.getD defaultPrefs

/-- The numeric reading of a decimal digit string. -/
def digitsToNat (l : List Char) : Nat :=
  l.foldl (fun n c => n * 10 + (c.toNat - 48)) 0

/-- The numeric reading of the `maxNumEvents` preference string. -/
def maxNumEventsNat (p : RecentEventsPrefs) : Nat :=
  digitsToNat p.maxNumEvents.data

/-- Modelled from the spec: the recent-events data layer
(`ducks/recentGcnEvents` and the user-preferences service, not under `src/`)
fills the store with at most `maxNumEvents` recently-viewed events; the widget
itself holds no filtering logic and renders one list item per stored event. -/
def fetchRecentGcnEvents {α : Type} (allEvents : List α) (prefs : RecentEventsPrefs) :
    List α :=
  allEvents.take (maxNumEventsNat prefs)

/-- The list the widget maps over: the store contents produced by the
data layer under the user's (or default) preferences. -/
def renderedRecentEvents {α : Type} (stored : Option RecentEventsPrefs)
    (allEvents : List α) : List α :=
  fetchRecentGcnEvents allEvents (recentEventsPrefs stored)

/-! ### Helper lemmas -/

theorem buildLookUp_isSome_iff {α : Type} (key : α → Int) (l : List α) (k : Int) :
    ((buildLookUp key l k).isSome = true) ↔ ∃ x ∈ l, key x = k := by
  suffices h : ∀ m : Int → Option α,
      (((l.foldl (fun m x => fun k2 => if k2 = key x then some x else m k2) m) k).isSome = true)
        ↔ (∃ x ∈ l, key x = k) ∨ ((m k).isSome = true) by
    simpa [buildLookUp] using h (fun _ => none)
  induction l with
  | nil => intro m; simp
  | cons x xs ih =>
    intro m
    simp only [List.foldl_cons]
    rw [ih]
    constructor
    · rintro (⟨y, hy, hk⟩ | hm)
      · exact Or.inl ⟨y, List.mem_cons_of_mem _ hy, hk⟩
      · by_cases hkx : k = key x
        · exact Or.inl ⟨x, List.mem_cons_self x xs, hkx.symm⟩
        · right; simpa [hkx] using hm
    · rintro (⟨y, hy, hk⟩ | hm)
      · rcases List.mem_cons.mp hy with rfl | hy2
        · right; simp [hk.symm]
        · exact Or.inl ⟨y, hy2, hk⟩
      · right
        by_cases hkx : k = key x <;> simp [hkx, hm]

theorem instLe_refl (a : Instrument) : instLe a a = true := by
  simp only [instLe, instrumentCmp, decide_eq_true_eq]
  split_ifs <;> omega

theorem instLe_total (a b : Instrument) : (instLe a b || instLe b a) = true := by
  simp only [instLe, instrumentCmp, Bool.or_eq_true, decide_eq_true_eq]
  split_ifs <;> omega

theorem instLe_trans (a b c : Instrument) (hab : instLe a b = true)
    (hbc : instLe b c = true) : instLe a c = true := by
  simp only [instLe, instrumentCmp, decide_eq_true_eq] at hab hbc ⊢
  split_ifs at hab hbc ⊢ <;> omega

theorem orderedInstrumentList_head_min (l : List Instrument) (h0 : Instrument)
    (t : List Instrument) (heq : orderedInstrumentList l = h0 :: t) :
    ∀ x ∈ l, instLe h0 x = true := by
  intro x hx
  have hpw : (orderedInstrumentList l).Pairwise (fun a b => instLe a b = true) :=
    List.sorted_mergeSort instLe_trans instLe_total l
  have hmem : x ∈ orderedInstrumentList l := by
    unfold orderedInstrumentList
    exact List.mem_mergeSort.mpr hx
  rw [heq] at hpw hmem
  rcases List.mem_cons.mp hmem with rfl | hxt
  · exact instLe_refl x
  · exact (List.pairwise_cons.mp hpw).1 x hxt

/-! ### Claim theorems -/

/-- C1 (code bug): the claim says a submission with `startDate > endDate` is
blocked with a start-date field error, but `validate` compares the nonexistent
snake_case properties `formData.start_date` and `formData.end_date` — both
`undefined`, so the comparison is `false` — and therefore records no error at
all: for any form data with in-range cumulative probability, reversed dates
included, it returns the untouched error handler and submission proceeds. -/
theorem validate_never_blocks_reversed_dates (fd : FilterFormData)
    (_hdates : fd.endDate < fd.startDate)
    (h0 : 0 ≤ fd.localizationCumprob) (h1 : fd.localizationCumprob ≤ 1.01) :
    validate fd = Except.ok (initErrorHandler fd) := by
  have hprop : fd.jsProp "localizationCumprob" = JSVal.vnum fd.localizationCumprob := rfl
  have hgt : jsGt (fd.jsProp "start_date") (fd.jsProp "end_date") = false := rfl
  have hlt : jsLt (fd.jsProp "localizationCumprob") (JSVal.vnum 0) = false := by
    rw [hprop]
    simp only [jsLt, decide_eq_false_iff_not, not_lt]
    exact h0
  have hgt2 : jsGt (fd.jsProp "localizationCumprob") (JSVal.vnum 1.01) = false := by
    rw [hprop]
    simp only [jsGt, decide_eq_false_iff_not, not_lt]
    exact h1
  simp [validate, hgt, hlt, hgt2]

/-- Form data whose start date is strictly after its end date. -/
def fdReversed : FilterFormData :=
  { startDate := "2023-01-10 00:00:00", endDate := "2023-01-01 00:00:00",
    numberDetections := 2, localizationCumprob := 0.95, maxDistance := 150,
    localizationRejectSources := false, queryList := ["sources"], group_ids := [1] }

/-- C1 witness: the reversed-date submission above sails through `validate`. -/
theorem validate_never_blocks_reversed_dates_witness :
    fdReversed.endDate < fdReversed.startDate ∧
      validate fdReversed = Except.ok (initErrorHandler fdReversed) :=
  ⟨String.lt_iff_toList_lt.mpr (by decide),
   validate_never_blocks_reversed_dates fdReversed
    (String.lt_iff_toList_lt.mpr (by decide))
    (by norm_num [fdReversed]) (by norm_num [fdReversed])⟩

/-- C2 (code bug): the claim says an out-of-range cumulative probability is
blocked with a cumulative-probability field error, but `validate` targets
`errors.cumulative`, and `cumulative` is not a field of the form (the field is
`localizationCumprob`), so the member access yields `undefined` and the
`addError` call raises a TypeError instead of surfacing a field error. -/
theorem validate_crashes_on_out_of_range_cumprob (fd : FilterFormData)
    (h : fd.localizationCumprob < 0 ∨ 1.01 < fd.localizationCumprob) :
    validate fd = Except.error "TypeError: addError of undefined" := by
  have hprop : fd.jsProp "localizationCumprob" = JSVal.vnum fd.localizationCumprob := rfl
  have hgt : jsGt (fd.jsProp "start_date") (fd.jsProp "end_date") = false := rfl
  have hcond : (jsLt (fd.jsProp "localizationCumprob") (JSVal.vnum 0)
      || jsGt (fd.jsProp "localizationCumprob") (JSVal.vnum 1.01)) = true := by
    rw [hprop]
    simp only [jsLt, jsGt, Bool.or_eq_true, decide_eq_true_eq]
    exact h
  have haddErr : (initErrorHandler fd).addError "cumulative"
      "Value of cumulative should be between 0 and 1"
      = Except.error "TypeError: addError of undefined" := rfl
  simp [validate, hgt, hcond, haddErr]

/-- Form data whose cumulative probability exceeds the 1.01 bound. -/
def fdBadCumprob : FilterFormData :=
  { startDate := "2023-01-01 00:00:00", endDate := "2023-01-08 00:00:00",
    numberDetections := 2, localizationCumprob := 2, maxDistance := 150,
    localizationRejectSources := false, queryList := ["sources"], group_ids := [1] }

/-- C2 witness: with cumulative probability 2 the validator raises instead of
adding a field error. -/
theorem validate_crashes_on_out_of_range_cumprob_witness :
    (fdBadCumprob.localizationCumprob < 0 ∨ 1.01 < fdBadCumprob.localizationCumprob) ∧
      validate fdBadCumprob = Except.error "TypeError: addError of undefined" :=
  ⟨by norm_num [fdBadCumprob],
   validate_crashes_on_out_of_range_cumprob fdBadCumprob (by norm_num [fdBadCumprob])⟩

/-- C3: for a non-empty instrument list (and non-empty localization list),
`setDefaults` selects an instrument of the list; it is named `"ZTF"` whenever
any instrument of the list is, regardless of the list's order, and otherwise
has the minimal id; the default localization is the first one in list order
(its id and name). -/
theorem setDefaults_prefers_ztf (l : List Instrument) (locs : List Localization)
    (hl : l ≠ []) (hlocs : locs ≠ []) :
    ∃ inst ∈ l, (setDefaults l locs).1 = some inst.id ∧
      ((∃ z ∈ l, z.name = "ZTF") → inst.name = "ZTF") ∧
      ((∀ z ∈ l, z.name ≠ "ZTF") → ∀ x ∈ l, inst.id ≤ x.id) ∧
      ∃ loc, locs.head? = some loc ∧ (setDefaults l locs).2.1 = some loc.id ∧
        (setDefaults l locs).2.2 = some loc.localization_name := by
  cases heq : orderedInstrumentList l with
  | nil =>
    exfalso
    have hperm : (l.mergeSort instLe).Perm l := List.mergeSort_perm l instLe
    rw [show l.mergeSort instLe = orderedInstrumentList l from rfl, heq] at hperm
    exact hl hperm.symm.eq_nil
  | cons h0 t =>
    have hmin := orderedInstrumentList_head_min l h0 t heq
    have hmem : h0 ∈ l := by
      have hin : h0 ∈ orderedInstrumentList l := by
        rw [heq]; exact List.mem_cons_self h0 t
      unfold orderedInstrumentList at hin
      exact List.mem_mergeSort.mp hin
    rcases locs with _ | ⟨loc0, locrest⟩
    · exact absurd rfl hlocs
    refine ⟨h0, hmem, ?_, ?_, ?_, loc0, rfl, rfl, rfl⟩
    · simp [setDefaults, heq]
    · rintro ⟨z, hz, hzname⟩
      by_contra hh
      have hle := hmin z hz
      simp only [instLe, instrumentCmp, decide_eq_true_eq] at hle
      rw [if_neg hh, if_pos hzname] at hle
      omega
    · intro hnoz x hx
      have hle := hmin x hx
      simp only [instLe, instrumentCmp, decide_eq_true_eq] at hle
      rw [if_neg (hnoz h0 hmem), if_neg (hnoz x hx)] at hle
      split_ifs at hle <;> omega

/-- Instrument list for the C3 witness, with `"ZTF"` neither first nor of
lowest id. -/
def instListW : List Instrument :=
  [{ id := 3, name := "ATLAS" }, { id := 1, name := "DECam" }, { id := 2, name := "ZTF" }]

/-- Localization list for the C3 witness. -/
def locListW : List Localization :=
  [{ id := 7, localization_name := "bayestar.fits" },
   { id := 8, localization_name := "LALInference.fits" }]

/-- C3 witness: on a concrete out-of-order list the default instrument is the
`"ZTF"` one and the default localization is the first of the list. -/
theorem setDefaults_prefers_ztf_witness :
    ∃ inst ∈ instListW, (setDefaults instListW locListW).1 = some inst.id ∧
      ((∃ z ∈ instListW, z.name = "ZTF") → inst.name = "ZTF") ∧
      ((∀ z ∈ instListW, z.name ≠ "ZTF") → ∀ x ∈ instListW, inst.id ≤ x.id) ∧
      ∃ loc, locListW.head? = some loc ∧
        (setDefaults instListW locListW).2.1 = some loc.id ∧
        (setDefaults instListW locListW).2.2 = some loc.localization_name :=
  setDefaults_prefers_ztf instListW locListW (by decide) (by decide)

/-- C4 counterexample: the Sources pane is not determined by the collection
alone — with a populated collection but no resolved localization name it does
not render the table (it renders nothing), refuting the claimed three-state
behaviour for the sources category. -/
theorem sourcesPane_populated_without_name_not_table :
    sourcesPane (some ["src1"]) none ≠ PaneView.table := by decide

/-- C4 (amended): the Galaxies and Observations panes render exactly one of
three mutually exclusive states determined by their collection (fetching when
absent, the "None" text when empty, the table when non-empty); the Sources
pane renders fetching/None the same way, but with a non-empty collection it
renders the table only when a localization name is resolved, and otherwise
renders nothing. -/
theorem panes_render_states {α : Type} (c : Option (List α)) (locName : Option String) :
    (galaxiesPane c = PaneView.fetching ↔ c = none) ∧
    (galaxiesPane c = PaneView.noneText ↔ c = some []) ∧
    (galaxiesPane c = PaneView.table ↔ ∃ l, c = some l ∧ l ≠ []) ∧
    (observationsPane c = PaneView.fetching ↔ c = none) ∧
    (observationsPane c = PaneView.noneText ↔ c = some []) ∧
    (observationsPane c = PaneView.table ↔ ∃ l, c = some l ∧ l ≠ []) ∧
    (sourcesPane c locName = PaneView.fetching ↔ c = none) ∧
    (sourcesPane c locName = PaneView.noneText ↔ c = some []) ∧
    (sourcesPane c locName = PaneView.table ↔
      (∃ l, c = some l ∧ l ≠ []) ∧ jsTruthyStr locName = true) ∧
    (sourcesPane c locName = PaneView.blank ↔
      (∃ l, c = some l ∧ l ≠ []) ∧ jsTruthyStr locName = false) := by
  rcases c with _ | l
  · simp [galaxiesPane, observationsPane, sourcesPane]
  · rcases l with _ | ⟨x, xs⟩
    · simp [galaxiesPane, observationsPane, sourcesPane]
    · cases hn : jsTruthyStr locName <;>
        simp [galaxiesPane, observationsPane, sourcesPane, hn]

/-- C4 witness: a present-but-empty galaxies collection renders the "None"
text. -/
theorem panes_render_states_witness :
    galaxiesPane (some ([] : List String)) = PaneView.noneText :=
  (panes_render_states (some ([] : List String)) none).2.1.mpr rfl

/-- C5 counterexample: on a concrete state with `"trigger_a"` selected,
choosing the Clear Selection entry (id -1) leaves the trigger-name selection
untouched — it is not reset to empty as the claim states. -/
theorem clear_selection_keeps_trigger_name :
    (handleGcnEventSelectChange
      { gcneventid := FormFieldVal.idv 4, localizationid := FormFieldVal.idv 9,
        selectedGcnEventId := some 4, selectedTriggerName := "trigger_a",
        triggerList := ["trigger_a", "trigger_b"] }
      [{ id := 4, dateobs := "2023-01-01T00:00:00",
         localizations := [{ id := 9, localization_name := "bayestar.fits" }] }]
      (-1)).selectedTriggerName ≠ "" := by decide

/-- C5 (amended): selecting the Clear Selection entry (sentinel id -1) resets
the gcn-event form field and the dependent localization form field to empty;
the trigger-name selection is left unchanged. -/
theorem clear_selection_resets_event_and_localization (st : TriggerSelState)
    (gcnEvents : List GcnEvent) :
    (handleGcnEventSelectChange st gcnEvents (-1)).gcneventid = FormFieldVal.empty ∧
    (handleGcnEventSelectChange st gcnEvents (-1)).localizationid = FormFieldVal.empty ∧
    (handleGcnEventSelectChange st gcnEvents (-1)).selectedTriggerName
      = st.selectedTriggerName := by
  simp [handleGcnEventSelectChange]

/-- C6: while a Treasure Map submission for instrument `b` is in flight, the
submit slot of any other instrument `a` still shows the operable button; only
the in-flight instrument's slot is replaced by the progress indicator, and
after completion the button is back for every instrument. -/
theorem treasureMap_unrelated_instrument_operable (a b : Int) (hne : a ≠ b) :
    treasureMapSubmitControl (handleSubmitTreasureMapStart b) a
        = TreasureMapControl.button ∧
    treasureMapSubmitControl (handleSubmitTreasureMapStart b) b
        = TreasureMapControl.progress ∧
    treasureMapSubmitControl handleSubmitTreasureMapFinish a
        = TreasureMapControl.button := by
  refine ⟨?_, ?_, ?_⟩
  · simp [treasureMapSubmitControl, handleSubmitTreasureMapStart, Ne.symm hne]
  · simp [treasureMapSubmitControl, handleSubmitTreasureMapStart]
  · simp [treasureMapSubmitControl, handleSubmitTreasureMapFinish]

/-- C6 witness: instrument 1 stays operable while instrument 2 submits. -/
theorem treasureMap_unrelated_instrument_operable_witness :
    treasureMapSubmitControl (handleSubmitTreasureMapStart 2) 1
        = TreasureMapControl.button ∧
    treasureMapSubmitControl (handleSubmitTreasureMapStart 2) 2
        = TreasureMapControl.progress ∧
    treasureMapSubmitControl handleSubmitTreasureMapFinish 1
        = TreasureMapControl.button :=
  treasureMap_unrelated_instrument_operable 1 2 (by decide)

/-- C7: the Recent Events widget's rendered list length is bounded by the
`maxNumEvents` user preference, and with no stored preference the bound
defaults to 5 (`defaultPrefs`). -/
theorem recentEvents_length_bounded {α : Type} (stored : Option RecentEventsPrefs)
    (allEvents : List α) :
    (renderedRecentEvents stored allEvents).length
        ≤ maxNumEventsNat (recentEventsPrefs stored) ∧
    recentEventsPrefs none = defaultPrefs ∧
    maxNumEventsNat defaultPrefs = 5 := by
  refine ⟨?_, rfl, rfl⟩
  simp only [renderedRecentEvents, fetchRecentGcnEvents, List.length_take]
  exact min_le_left _ _

/-- C8: the Sources pane renders its table only when a resolved localization
name is present; for every populated sources collection with an absent name it
renders nothing. -/
theorem sourcesPane_requires_name {α : Type} :
    (∀ (c : Option (List α)) (n : Option String),
        sourcesPane c n = PaneView.table → jsTruthyStr n = true) ∧
    (∀ (l : List α) (n : Option String), l ≠ [] → jsTruthyStr n = false →
        sourcesPane (some l) n = PaneView.blank) := by
  constructor
  · intro c n h
    rcases c with _ | l
    · simp [sourcesPane] at h
    · rcases l with _ | ⟨x, xs⟩
      · simp [sourcesPane] at h
      · cases hn : jsTruthyStr n
        · simp [sourcesPane, hn] at h
        · rfl
  · intro l n hne habs
    rcases l with _ | ⟨x, xs⟩
    · exact absurd rfl hne
    · simp [sourcesPane, habs]

/-- C8 witness: a populated sources collection with no localization name
renders nothing. -/
theorem sourcesPane_requires_name_witness :
    sourcesPane (some ["source_a"]) none = PaneView.blank :=
  (sourcesPane_requires_name (α := String)).2 ["source_a"] none (by decide) (by decide)

/-- C9: the sky-map overlay fetch for the (instrument, localization) pair is
dispatched exactly when both the selected instrument id and the selected
localization id resolve against the loaded lookup tables; an unresolved (or
null) id on either side means no fetch. -/
theorem skymapFetch_iff_ids_resolve (il : List Instrument) (locs : List Localization)
    (si sl : Option Int) :
    skymapFetchCond il locs si sl = true ↔
      ((∃ i, si = some i ∧ ∃ inst ∈ il, inst.id = i) ∧
       (∃ j, sl = some j ∧ ∃ loc ∈ locs, loc.id = j)) := by
  rcases si with _ | i
  · simp [skymapFetchCond]
  · rcases sl with _ | j
    · simp [skymapFetchCond]
    · simp only [skymapFetchCond, Bool.and_eq_true]
      rw [buildLookUp_isSome_iff, buildLookUp_isSome_iff]
      constructor
      · rintro ⟨⟨inst, hmem, hid⟩, ⟨loc, hmem2, hid2⟩⟩
        refine ⟨⟨i, rfl, inst, ?_, hid⟩, ⟨j, rfl, loc, hmem2, hid2⟩⟩
        unfold sortedInstrumentList at hmem
        exact List.mem_mergeSort.mp hmem
      · rintro ⟨⟨i2, hi2, inst, hmem, hid⟩, ⟨j2, hj2, loc, hmem2, hid2⟩⟩
        injection hi2 with hi2e
        injection hj2 with hj2e
        subst hi2e; subst hj2e
        refine ⟨⟨inst, ?_, hid⟩, ⟨loc, hmem2, hid2⟩⟩
        unfold sortedInstrumentList
        exact List.mem_mergeSort.mpr hmem

/-- C9 witness: with instrument 1 and localization 7 both loaded and selected,
the fetch condition holds. -/
theorem skymapFetch_iff_ids_resolve_witness :
    skymapFetchCond [{ id := 1, name := "ZTF" }]
      [{ id := 7, localization_name := "bayestar.fits" }] (some 1) (some 7) = true :=
  (skymapFetch_iff_ids_resolve [{ id := 1, name := "ZTF" }]
      [{ id := 7, localization_name := "bayestar.fits" }] (some 1) (some 7)).mpr
    ⟨⟨1, rfl, { id := 1, name := "ZTF" }, by simp, rfl⟩,
     ⟨7, rfl, { id := 7, localization_name := "bayestar.fits" }, by simp, rfl⟩⟩

/-- C10: after a completed trigger-catalog fetch (truthy allocation id,
non-empty obs-plan allocation list), the selected trigger name is an element
of the installed trigger list: a response with trigger names installs them and
selects the first, an empty or absent response makes both fall back to
"None". -/
theorem getTriggers_selection_invariant (selectedAllocationId : Option Int)
    (allocs : List Allocation) (response : Option (List String))
    (st : List String × String)
    (hguard : jsTruthyId selectedAllocationId = true) (hlen : allocs.length > 0) :
    getTriggers selectedAllocationId allocs response st = getTriggersUpdate response ∧
    (getTriggersUpdate response).2 ∈ (getTriggersUpdate response).1 ∧
    (∀ names, response = some names → names ≠ [] →
      (getTriggersUpdate response).1 = names ∧
      names.head? = some (getTriggersUpdate response).2) ∧
    ((response = none ∨ response = some []) →
      getTriggersUpdate response = (["None"], "None")) := by
  refine ⟨by simp [getTriggers, hguard, hlen], ?_, ?_, ?_⟩
  · rcases response with _ | names
    · simp [getTriggersUpdate]
    · rcases names with _ | ⟨n, ns⟩
      · simp [getTriggersUpdate]
      · simp [getTriggersUpdate]
  · rintro names rfl hne
    rcases names with _ | ⟨n, ns⟩
    · exact absurd rfl hne
    · simp [getTriggersUpdate]
  · rintro (rfl | rfl) <;> simp [getTriggersUpdate]

/-- C10 witness: a completed fetch returning two trigger names installs them
and selects the first. -/
theorem getTriggers_selection_invariant_witness :
    getTriggers (some 1) [{ id := 1 }] (some ["t1", "t2"]) (["None"], "None")
        = getTriggersUpdate (some ["t1", "t2"]) ∧
    (getTriggersUpdate (some ["t1", "t2"])).2 ∈ (getTriggersUpdate (some ["t1", "t2"])).1 ∧
    (∀ names, some ["t1", "t2"] = some names → names ≠ [] →
      (getTriggersUpdate (some ["t1", "t2"])).1 = names ∧
      names.head? = some (getTriggersUpdate (some ["t1", "t2"])).2) ∧
    ((some ["t1", "t2"] = none ∨ some ["t1", "t2"] = some []) →
      getTriggersUpdate (some ["t1", "t2"]) = (["None"], "None")) :=
  getTriggers_selection_invariant (some 1) [{ id := 1 }] (some ["t1", "t2"])
    (["None"], "None") (by decide) (by decide)

end SkyPortal
